import Mathlib

/-!
Shallow embedding of the streaming transcription service
(src/python-service/streaming.py, vad.py, transcription.py) together with
proofs about its segmentation, flushing and protocol behaviour.

Modelling conventions:
* raw audio bytes are lists of naturals;
* Python floats (timestamps, durations, confidences) are rationals;
* the ASR capability is an oracle parameter, so that a raised exception is
  an `Except.error` carrying its message;
* outbound websocket sends are recorded as an event list (transport is
  assumed healthy unless a claim is about transport failure);
* the per-connection asyncio task runs messages strictly in arrival order;
  the silence-check background task handle is not represented because no
  claim below depends on it, and cancelling or re-arming it does not touch
  buffers or emit events.
-/

/-- Raw audio bytes. -/
abbrev Bytes := List Nat

/-- Result of one call of the ASR capability `transcribe_chunk` as observed by
the streaming session: a (text, confidence) pair, or a raised exception with
its message. -/
abbrev TranscribeResult := Except String (String × ℚ)

/-- The ASR capability, abstracted as a function of the audio passed to it. -/
abbrev Transcriber := Bytes → TranscribeResult

/-- Outbound protocol events (JSON messages sent over the websocket). -/
inductive Event where
  | transcription (sessionId text : String) (confidence : ℚ) (final : Bool)
  | error (sessionId message : String)
  | connected (sessionId : String)
  | buffer_flushed (sessionId : String)
  | stream_ended (sessionId : String)
  deriving DecidableEq, Repr

/-- State of one `StreamingSession` (streaming.py lines 33-46). -/
structure StreamingSession where
  session_id : String
  audio_buffer : Bytes
  is_active : Bool
  process_until_timestamp : Option ℚ
  last_chunk_time : ℚ
  deriving DecidableEq, Repr

/-- `StreamingSession.__init__` (streaming.py lines 36-46); `now` stands for
the `time.time()` call recorded into `last_chunk_time`. -/
def StreamingSession.init (session_id : String) (now : ℚ) : StreamingSession :=
  ⟨session_id, [], true, none, now⟩

/-- `self.chunk_interval = 1.5` (streaming.py line 42). -/
def chunk_interval : ℚ := 3 / 2

/-- `min_chunk_size = int(16000 * 2 * self.chunk_interval)` (streaming.py
line 72): the size threshold, in bytes, that triggers a flush. -/
def min_chunk_size : ℕ := (⌊(16000 * 2 * chunk_interval : ℚ)⌋).toNat

/-- `min_bytes = 16000 * 2 * 0.25` (streaming.py lines 135, 199, 263): the
250 ms minimum floor, in bytes, below which a buffer is not transcribed. -/
def min_floor_bytes : ℚ := 16000 * 2 * (1 / 4)

/-- Result of one session operation: the new session state, the events sent,
and the list of buffers passed to the ASR capability (one entry per
transcription attempt, in order). -/
abbrev StepResult := StreamingSession × List Event × List Bytes

/-- Python `str.strip()` with no argument: remove leading and trailing
whitespace. Defined over the character list so that concrete instances
evaluate. -/
def pyStrip (s : String) : String :=
  ⟨((s.data.dropWhile Char.isWhitespace).reverse.dropWhile
      Char.isWhitespace).reverse⟩

/-- `StreamingSession._process_audio_buffer` (streaming.py lines 125-182).
Returns unchanged below the floor; otherwise snapshots the buffer, clears it,
transcribes the snapshot and emits a transcription event when the stripped
text is non-empty, or an error event when the capability raises. -/
def StreamingSession.processAudioBuffer (tr : Transcriber)
    (st : StreamingSession) : StepResult :=
  if st.audio_buffer.length = 0 then (st, [], [])
  else if (st.audio_buffer.length : ℚ) < min_floor_bytes then (st, [], [])
  else
    let chunk_to_process := st.audio_buffer
    let st1 := { st with audio_buffer := [] }
    match tr chunk_to_process with
    | .ok (text, confidence) =>
        if pyStrip text ≠ "" then
          (st1, [Event.transcription st.session_id text confidence false],
           [chunk_to_process])
        else (st1, [], [chunk_to_process])
    | .error msg => (st1, [Event.error st.session_id msg], [chunk_to_process])

/-- `StreamingSession.process_audio_chunk` (streaming.py lines 48-102).
When a cutoff is set, a chunk whose timestamp (wall clock `now_ms` when the
timestamp is omitted) exceeds the cutoff is dropped before any mutation;
otherwise the chunk is appended, `last_chunk_time` updated, and the buffer is
processed when it reaches `min_chunk_size`. -/
def StreamingSession.process_audio_chunk (tr : Transcriber)
    (st : StreamingSession) (audio_data : Bytes)
    (chunk_timestamp : Option ℚ) (now_ms : ℚ) : StepResult :=
  let dropped : Bool :=
    match st.process_until_timestamp with
    | some cutoff => decide (chunk_timestamp.getD now_ms > cutoff)
    | none => false
  if dropped then (st, [], [])
  else
    let st1 := { st with
      audio_buffer := st.audio_buffer ++ audio_data,
      last_chunk_time := now_ms }
    if min_chunk_size ≤ st1.audio_buffer.length then st1.processAudioBuffer tr
    else (st1, [], [])

/-- The trailing remaining-audio re-check shared by `flush_buffer`
(streaming.py lines 198-223) and `flush_buffer_with_cutoff` (lines 262-287):
when the buffer still meets the floor it is transcribed once more and a final
transcription event is emitted on non-empty stripped text; a raised exception
on this path is only logged, producing no event. -/
def StreamingSession.flushTail (tr : Transcriber) (st : StreamingSession) :
    List Event × List Bytes :=
  if min_floor_bytes ≤ (st.audio_buffer.length : ℚ) then
    match tr st.audio_buffer with
    | .ok (text, confidence) =>
        if pyStrip text ≠ "" then
          ([Event.transcription st.session_id text confidence true],
           [st.audio_buffer])
        else ([], [st.audio_buffer])
    | .error _ => ([], [st.audio_buffer])
  else ([], [])

/-- `StreamingSession.flush_buffer` (streaming.py lines 184-224): process any
non-empty buffer, re-check the remainder, then clear the buffer
unconditionally. -/
def StreamingSession.flush_buffer (tr : Transcriber)
    (st : StreamingSession) : StepResult :=
  let r1 := if 0 < st.audio_buffer.length then st.processAudioBuffer tr
            else (st, [], [])
  let st1 := r1.1
  let t := st1.flushTail tr
  ({ st1 with audio_buffer := [] }, r1.2.1 ++ t.1, r1.2.2 ++ t.2)

/-- `StreamingSession.flush_buffer_with_cutoff` (streaming.py lines 226-298):
sets `process_until_timestamp`, sleeps for the grace period (a suspension of
the owning task, represented at the dispatcher level), processes the buffer,
re-checks the remainder, clears the buffer and resets the cutoff. -/
def StreamingSession.flush_buffer_with_cutoff (tr : Transcriber)
    (st : StreamingSession) (cutoff_timestamp : ℚ) : StepResult :=
  let stc := { st with process_until_timestamp := some cutoff_timestamp }
  let r1 := if 0 < stc.audio_buffer.length then stc.processAudioBuffer tr
            else (stc, [], [])
  let st1 := r1.1
  let t := st1.flushTail tr
  ({ st1 with audio_buffer := [], process_until_timestamp := none },
   r1.2.1 ++ t.1, r1.2.2 ++ t.2)

/-- Inbound websocket messages after JSON decoding (streaming.py lines
339-416). `malformed` stands for a frame whose JSON decoding raises;
`other` is a well-formed message of an unrecognized type. -/
inductive InMsg where
  | connect (sessionId : Option String)
  | audio_chunk (chunk : Bytes) (timestamp : Option ℚ)
  | flush_msg (cutoffTimestamp : Option ℚ) (gracePeriodMs : Option ℚ)
  | end_stream
  | malformed
  | other (msgType : String)
  deriving DecidableEq, Repr

/-- Result of the read loop: final session state, events sent, buffers passed
to transcription, and the close code when the server closed the socket. -/
structure LoopResult where
  final : StreamingSession
  events : List Event
  transcripts : List Bytes
  closeCode : Option ℕ
  deriving DecidableEq, Repr

/-- The message loop of `StreamingManager.handle_websocket` (streaming.py
lines 358-413). Messages carry an arrival time in milliseconds; a message is
handled at the later of its arrival time and the time the loop becomes free,
because the loop awaits each handler inline. In particular a cutoff flush
advances the clock by its grace period while reading nothing, as the code
sleeps inside the awaited `flush_buffer_with_cutoff`. -/
def runLoop (tr : Transcriber) :
    List (ℚ × InMsg) → ℚ → StreamingSession → LoopResult
  | [], _, st => ⟨st, [], [], none⟩
  | (t, msg) :: rest, now, st =>
    let t1 := max now t
    match msg with
    | .audio_chunk chunk ts =>
        if chunk.length = 0 then runLoop tr rest t1 st
        else
          let r := st.process_audio_chunk tr chunk ts t1
          let k := runLoop tr rest t1 r.1
          ⟨k.final, r.2.1 ++ k.events, r.2.2 ++ k.transcripts, k.closeCode⟩
    | .flush_msg cutoffTs graceMs =>
        let isCutoff : Bool :=
          match cutoffTs with
          | some c => decide (c ≠ 0)
          | none => false
        let r := if isCutoff then st.flush_buffer_with_cutoff tr (cutoffTs.getD 0)
                 else st.flush_buffer tr
        let t2 := if isCutoff then t1 + graceMs.getD 500 else t1
        let k := runLoop tr rest t2 r.1
        ⟨k.final, r.2.1 ++ Event.buffer_flushed st.session_id :: k.events,
         r.2.2 ++ k.transcripts, k.closeCode⟩
    | .end_stream =>
        let r := st.flush_buffer tr
        ⟨r.1, r.2.1 ++ [Event.stream_ended st.session_id], r.2.2, some 1000⟩
    | .connect _ => runLoop tr rest t1 st
    | .malformed => runLoop tr rest t1 st
    | .other _ => runLoop tr rest t1 st

/-- Stands for `str(uuid.uuid4())` when the client supplies no session id. -/
def gen_session_id : String := "generated-uuid"

/-- Observable outcome of one websocket connection. -/
structure ConnResult where
  events : List Event
  transcripts : List Bytes
  closeCode : Option ℕ
  deriving DecidableEq, Repr

/-- `StreamingManager.handle_websocket` (streaming.py lines 328-435).
The first frame is decoded outside the loop: a JSON decoding failure there
propagates to the outer handler, which closes with code 1011; a well-formed
first message that is not `connect` closes with code 1008. After the loop the
`finally` block performs a best-effort `flush_buffer`. An exhausted message
list models the peer disconnecting. -/
def handle_websocket (tr : Transcriber) (msgs : List (ℚ × InMsg)) : ConnResult :=
  match msgs with
  | [] => ⟨[], [], none⟩
  | (t, InMsg.connect sid) :: rest =>
      let session_id :=
        match sid with
        | some s => if s = "" then gen_session_id else s
        | none => gen_session_id
      let k := runLoop tr rest t (StreamingSession.init session_id t)
      let fin := k.final.flush_buffer tr
      ⟨Event.connected session_id :: (k.events ++ fin.2.1),
       k.transcripts ++ fin.2.2, k.closeCode⟩
  | (_, InMsg.malformed) :: _ => ⟨[], [], some 1011⟩
  | (_, _) :: _ => ⟨[], [], some 1008⟩

/-- `VADService.has_sufficient_speech` (vad.py lines 137-182), with the
per-chunk classifier `is_speech` as an oracle. With VAD disabled it is a pure
byte-length comparison; with VAD enabled it samples up to three portions of
the buffer and requires at least half of them to classify as speech. -/
def has_sufficient_speech (enabled : Bool) ( is_speech : Bytes → Bool)
    (audio_buffer : Bytes) (sample_rate : ℕ)
    (min_speech_duration_ms : ℕ) : Bool :=
  if !enabled then
    decide (((sample_rate : ℚ) * 2 * ((min_speech_duration_ms : ℚ) / 1000)) ≤
      (audio_buffer.length : ℚ))
  else
    let min_samples :=
      (⌊(sample_rate : ℚ) * ((min_speech_duration_ms : ℚ) / 1000)⌋).toNat
    let min_bytes := min_samples * 2
    if audio_buffer.length < min_bytes then false
    else
      let buffer_size := audio_buffer.length
      let num_samples := min 3 (buffer_size / min_bytes)
      let speech_detections := (List.range num_samples).countP (fun i =>
        let start := i * (buffer_size / (num_samples + 1))
        let stop := min (start + min_bytes) buffer_size
        is_speech ((audio_buffer.drop start).take (stop - start)))
      if 0 < num_samples then
        decide (((num_samples : ℚ) / 2) ≤ (speech_detections : ℚ))
      else false

/-- Modelled from the spec: with VAD disabled, HasSufficientSpeech is a
byte-length check of sampleRate times 2 times minDurationMs over 1000. -/
def hasSufficientSpeechSpec (buffer_len sample_rate min_duration_ms : ℕ) : Bool :=
  decide ((((sample_rate : ℚ) * 2 * (min_duration_ms : ℚ)) / 1000) ≤
    (buffer_len : ℚ))

/-- `TranscriptionService.transcribe_chunk` (transcription.py lines 118-200).
The int16 view of the bytes has `length / 2` samples; inputs shorter than
`sample_rate / 2` samples return ("", 0.0) without touching the model. The
Whisper invocation (WAV round trip, segment join, strip and confidence
clamp) is abstracted as the oracle `model`; the second component counts how
many times the model was invoked. -/
def transcribe_chunk (model : Bytes → String × ℚ) (audio_data : Bytes)
    (sample_rate : ℕ) : (String × ℚ) × ℕ :=
  let num_samples := audio_data.length / 2
  let min_samples := sample_rate / 2
  if num_samples < min_samples then (("", 0), 0)
  else (model audio_data, 1)

/-- The transcriber the streaming session actually uses: `transcribe_chunk`
at 16 kHz over a given ASR model (streaming.py lines 150-153). -/
def transcriberOfModel (model : Bytes → String × ℚ) : Transcriber :=
  fun chunk => .ok (transcribe_chunk model chunk 16000).1

/-- A transcriber that always succeeds with a fixed non-empty text. -/
def trHello : Transcriber := fun _ => .ok ("hello", 9 / 10)

/-- A transcriber that always raises with message `msg`. -/
def trFail (msg : String) : Transcriber := fun _ => .error msg

/-- The size threshold evaluates to 48000 bytes (1.5 s of 16 kHz PCM16). -/
theorem min_chunk_size_eq : min_chunk_size = 48000 := by
  have h : (16000 * 2 * chunk_interval : ℚ) = 48000 := by
    norm_num [chunk_interval]
  rw [min_chunk_size, h]
  simp

/-- The 250 ms floor evaluates to 8000 bytes. -/
theorem min_floor_bytes_eq : min_floor_bytes = 8000 := by
  norm_num [min_floor_bytes]

/-- The floor comparison used by the session, restated over naturals. -/
theorem min_floor_le_iff (n : ℕ) :
    (min_floor_bytes ≤ (n : ℚ)) ↔ 8000 ≤ n := by
  rw [min_floor_bytes_eq]
  exact_mod_cast Iff.rfl

/-- The strict floor comparison used by the session, restated over naturals. -/
theorem lt_min_floor_iff (n : ℕ) :
    ((n : ℚ) < min_floor_bytes) ↔ n < 8000 := by
  rw [min_floor_bytes_eq]
  exact_mod_cast Iff.rfl

/-- Events produced by one transcription attempt on `chunk` inside
`_process_audio_buffer`: a transcription event when the capability returns
non-blank text, an error event when it raises, nothing otherwise. -/
def attemptEvents (tr : Transcriber) (sid : String) (chunk : Bytes) : List Event :=
  match tr chunk with
  | .ok (text, confidence) =>
      if pyStrip text ≠ "" then [Event.transcription sid text confidence false]
      else []
  | .error msg => [Event.error sid msg]

theorem attemptEvents_fail (msg sid : String) (chunk : Bytes) :
    attemptEvents (trFail msg) sid chunk = [Event.error sid msg] := rfl

theorem processAudioBuffer_below (tr : Transcriber) (st : StreamingSession)
    (h : st.audio_buffer.length < 8000) :
    st.processAudioBuffer tr = (st, [], []) := by
  unfold StreamingSession.processAudioBuffer
  rcases Nat.eq_zero_or_pos st.audio_buffer.length with h0 | h0
  · simp [h0]
  · rw [if_neg (by omega), if_pos ((lt_min_floor_iff _).mpr h)]

theorem processAudioBuffer_attempt (tr : Transcriber) (st : StreamingSession)
    (h : 8000 ≤ st.audio_buffer.length) :
    st.processAudioBuffer tr =
      ({ st with audio_buffer := [] },
       attemptEvents tr st.session_id st.audio_buffer, [st.audio_buffer]) := by
  have h0 : ¬ st.audio_buffer.length = 0 := by omega
  have h1 : ¬ ((st.audio_buffer.length : ℚ) < min_floor_bytes) := by
    rw [not_lt, min_floor_le_iff]
    exact h
  cases htr : tr st.audio_buffer with
  | ok p =>
      obtain ⟨text, confidence⟩ := p
      by_cases ht : pyStrip text = "" <;>
        simp [StreamingSession.processAudioBuffer, attemptEvents, h0, h1, htr, ht]
  | error msg =>
      simp [StreamingSession.processAudioBuffer, attemptEvents, h0, h1, htr]

theorem flushTail_empty (tr : Transcriber) (st : StreamingSession)
    (h : st.audio_buffer.length < 8000) :
    st.flushTail tr = ([], []) := by
  unfold StreamingSession.flushTail
  rw [if_neg (by rw [min_floor_le_iff]; omega)]

/-- Full characterization of `flush_buffer`: the buffer is always cleared;
one transcription attempt on the whole buffer happens exactly when the buffer
meets the 250 ms floor, and the trailing re-check never fires because
`_process_audio_buffer` either clears the buffer or leaves it under the
floor. -/
theorem flush_buffer_eq (tr : Transcriber) (st : StreamingSession) :
    st.flush_buffer tr =
      ({ st with audio_buffer := [] },
       if 8000 ≤ st.audio_buffer.length then
         attemptEvents tr st.session_id st.audio_buffer
       else [],
       if 8000 ≤ st.audio_buffer.length then [st.audio_buffer] else []) := by
  obtain ⟨sid, buf, act, cut, lct⟩ := st
  rcases le_or_lt 8000 buf.length with h | h
  · have hpos : 0 < buf.length := by omega
    have hab := processAudioBuffer_attempt tr ⟨sid, buf, act, cut, lct⟩ h
    have htl := flushTail_empty tr ⟨sid, [], act, cut, lct⟩ (by simp)
    simp [StreamingSession.flush_buffer, hpos, hab, htl, h]
  · have hnot : ¬ 8000 ≤ buf.length := by omega
    rcases Nat.eq_zero_or_pos buf.length with h0 | h0
    · have hbuf : buf = [] := List.length_eq_zero.mp h0
      subst hbuf
      have htl := flushTail_empty tr ⟨sid, [], act, cut, lct⟩ (by simp)
      simp [StreamingSession.flush_buffer, htl, hnot]
    · have hpb := processAudioBuffer_below tr ⟨sid, buf, act, cut, lct⟩ h
      have htl := flushTail_empty tr ⟨sid, buf, act, cut, lct⟩ h
      simp [StreamingSession.flush_buffer, h0, hpb, htl, hnot]

/-- Full characterization of `flush_buffer_with_cutoff` at the session level:
same buffer evaluation as `flush_buffer`, with the cutoff reset at the end. -/
theorem flush_buffer_with_cutoff_eq (tr : Transcriber) (st : StreamingSession)
    (c : ℚ) :
    st.flush_buffer_with_cutoff tr c =
      ({ st with audio_buffer := [], process_until_timestamp := none },
       if 8000 ≤ st.audio_buffer.length then
         attemptEvents tr st.session_id st.audio_buffer
       else [],
       if 8000 ≤ st.audio_buffer.length then [st.audio_buffer] else []) := by
  obtain ⟨sid, buf, act, cut, lct⟩ := st
  rcases le_or_lt 8000 buf.length with h | h
  · have hpos : 0 < buf.length := by omega
    have hab := processAudioBuffer_attempt tr
      ⟨sid, buf, act, some c, lct⟩ h
    have htl := flushTail_empty tr
      ⟨sid, [], act, some c, lct⟩ (by simp)
    simp [StreamingSession.flush_buffer_with_cutoff, hpos, hab, htl, h]
  · have hnot : ¬ 8000 ≤ buf.length := by omega
    rcases Nat.eq_zero_or_pos buf.length with h0 | h0
    · have hbuf : buf = [] := List.length_eq_zero.mp h0
      subst hbuf
      have htl := flushTail_empty tr
        ⟨sid, [], act, some c, lct⟩ (by simp)
      simp [StreamingSession.flush_buffer_with_cutoff, htl, hnot]
    · have hpb := processAudioBuffer_below tr
        ⟨sid, buf, act, some c, lct⟩ h
      have htl := flushTail_empty tr
        ⟨sid, buf, act, some c, lct⟩ h
      simp [StreamingSession.flush_buffer_with_cutoff, h0, hpb, htl, hnot]

theorem process_audio_chunk_dropped (tr : Transcriber) (st : StreamingSession)
    (a : Bytes) (ts : Option ℚ) (now c : ℚ)
    (hcut : st.process_until_timestamp = some c)
    (hlate : c < ts.getD now) :
    st.process_audio_chunk tr a ts now = (st, [], []) := by
  simp [StreamingSession.process_audio_chunk, hcut, hlate]

theorem process_audio_chunk_append (tr : Transcriber) (st : StreamingSession)
    (a : Bytes) (ts : Option ℚ) (now : ℚ)
    (hcut : st.process_until_timestamp = none)
    (hlen : st.audio_buffer.length + a.length < min_chunk_size) :
    st.process_audio_chunk tr a ts now =
      ({ st with
          audio_buffer := st.audio_buffer ++ a,
          last_chunk_time := now }, [], []) := by
  obtain ⟨sid, buf, act, cut, lct⟩ := st
  simp only at hcut hlen
  subst hcut
  have hlt : ¬ min_chunk_size ≤ buf.length + a.length := by omega
  simp [StreamingSession.process_audio_chunk, hlt]

theorem process_audio_chunk_threshold (tr : Transcriber) (st : StreamingSession)
    (a : Bytes) (ts : Option ℚ) (now : ℚ)
    (hcut : st.process_until_timestamp = none)
    (hlen : min_chunk_size ≤ st.audio_buffer.length + a.length) :
    st.process_audio_chunk tr a ts now =
      ({ st with audio_buffer := [], last_chunk_time := now },
       attemptEvents tr st.session_id (st.audio_buffer ++ a),
       [st.audio_buffer ++ a]) := by
  have h48 : min_chunk_size = 48000 := min_chunk_size_eq
  obtain ⟨sid, buf, act, cut, lct⟩ := st
  simp only at hcut hlen
  subst hcut
  have h8 : 8000 ≤ (buf ++ a).length := by
    rw [List.length_append]
    omega
  have hab := processAudioBuffer_attempt tr ⟨sid, buf ++ a, act, none, now⟩ h8
  simp [StreamingSession.process_audio_chunk, hlen, hab]

theorem set_buffer_empty_eq (st : StreamingSession) (h : st.audio_buffer = []) :
    ({ st with audio_buffer := [] } : StreamingSession) = st := by
  cases st
  simp_all

/-- C2: whenever the cutoff `process_until_timestamp` is set and the chunk
timestamp (or the wall clock in milliseconds when the timestamp is omitted)
exceeds it, `process_audio_chunk` silently drops the chunk: the session state
is unchanged (in particular `audio_buffer`), no transcription or error event
is emitted, and no transcription is attempted. -/
theorem C2_cutoff_silent_drop (tr : Transcriber) (st : StreamingSession)
    (audio_data : Bytes) (chunk_timestamp : Option ℚ) (now_ms cutoff : ℚ)
    (hcut : st.process_until_timestamp = some cutoff)
    (hlate : cutoff < chunk_timestamp.getD now_ms) :
    st.process_audio_chunk tr audio_data chunk_timestamp now_ms =
      (st, [], []) :=
  process_audio_chunk_dropped tr st audio_data chunk_timestamp now_ms cutoff
    hcut hlate

/-- Witness for C2: a session with cutoff 1000 drops a chunk stamped 1500. -/
theorem C2_cutoff_silent_drop_witness :
    (⟨"s", [1], true, some 1000, 0⟩ : StreamingSession).process_until_timestamp
        = some 1000 ∧
    (1000 : ℚ) < (some (1500 : ℚ)).getD 0 ∧
    (⟨"s", [1], true, some 1000, 0⟩ : StreamingSession).process_audio_chunk
        trHello [2, 3] (some 1500) 0 =
      (⟨"s", [1], true, some 1000, 0⟩, [], []) :=
  ⟨rfl, by rw [Option.getD_some]; norm_num,
   C2_cutoff_silent_drop trHello ⟨"s", [1], true, some 1000, 0⟩ [2, 3]
     (some 1500) 0 1000 rfl (by rw [Option.getD_some]; norm_num)⟩

/-- C3: with no cutoff active, the `process_audio_chunk` call that makes the
accumulated buffer reach or exceed `min_chunk_size` = 48000 bytes performs
exactly one transcription attempt, on the entire accumulated buffer, inside
that call, and leaves the buffer empty immediately after; below the threshold
no attempt occurs and the chunk is only appended. -/
theorem C3_threshold_single_flush (tr : Transcriber) (st : StreamingSession)
    (audio_data : Bytes) (chunk_timestamp : Option ℚ) (now_ms : ℚ)
    (hcut : st.process_until_timestamp = none) :
    min_chunk_size = 48000 ∧
    (min_chunk_size ≤ st.audio_buffer.length + audio_data.length →
      st.process_audio_chunk tr audio_data chunk_timestamp now_ms =
        ({ st with audio_buffer := [], last_chunk_time := now_ms },
         attemptEvents tr st.session_id (st.audio_buffer ++ audio_data),
         [st.audio_buffer ++ audio_data])) ∧
    (st.audio_buffer.length + audio_data.length < min_chunk_size →
      st.process_audio_chunk tr audio_data chunk_timestamp now_ms =
        ({ st with
            audio_buffer := st.audio_buffer ++ audio_data,
            last_chunk_time := now_ms }, [], [])) :=
  ⟨min_chunk_size_eq,
   fun h => process_audio_chunk_threshold tr st audio_data chunk_timestamp
     now_ms hcut h,
   fun h => process_audio_chunk_append tr st audio_data chunk_timestamp
     now_ms hcut h⟩

/-- Witness for C3: a 40000-byte buffer receiving an 8000-byte chunk crosses
the 48000-byte threshold, is transcribed as a whole and is left empty. -/
theorem C3_threshold_single_flush_witness :
    (⟨"s", List.replicate 40000 0, true, none, 0⟩ :
        StreamingSession).process_until_timestamp = none ∧
    min_chunk_size ≤ (List.replicate 40000 0 : Bytes).length +
      (List.replicate 8000 1 : Bytes).length ∧
    (⟨"s", List.replicate 40000 0, true, none, 0⟩ :
        StreamingSession).process_audio_chunk trHello
      (List.replicate 8000 1) (some 900) 5 =
      ({ (⟨"s", List.replicate 40000 0, true, none, 0⟩ : StreamingSession) with
          audio_buffer := [], last_chunk_time := 5 },
       attemptEvents trHello
         (⟨"s", List.replicate 40000 0, true, none, 0⟩ :
           StreamingSession).session_id
         ((⟨"s", List.replicate 40000 0, true, none, 0⟩ :
           StreamingSession).audio_buffer ++ List.replicate 8000 1),
       [(⟨"s", List.replicate 40000 0, true, none, 0⟩ :
           StreamingSession).audio_buffer ++ List.replicate 8000 1]) :=
  ⟨rfl, by simp only [List.length_replicate, min_chunk_size_eq]; norm_num,
   (C3_threshold_single_flush trHello
     ⟨"s", List.replicate 40000 0, true, none, 0⟩
     (List.replicate 8000 1) (some 900) 5 rfl).2.1
     (by rw [show ((⟨"s", List.replicate 40000 0, true, none, 0⟩ :
             StreamingSession)).audio_buffer = List.replicate 40000 0 from rfl,
           List.length_replicate, List.length_replicate, min_chunk_size_eq])⟩

/-- A fixture session holding 8000 buffered bytes (exactly the 250 ms floor). -/
def stBig : StreamingSession := ⟨"sess", List.replicate 8000 3, true, none, 0⟩

theorem stBig_len : 8000 ≤ stBig.audio_buffer.length := by
  rw [show stBig.audio_buffer = List.replicate 8000 3 from rfl,
    List.length_replicate]

/-- C5: when the transcription capability raises during any reachable flush
path (the shared `_process_audio_buffer` body used by the silence flush, the
explicit `flush_buffer`, the cutoff flush, and the size-threshold flush inside
`process_audio_chunk`), the exception is caught and reported as a single error
event carrying the session id and the message, the session stays active
(`is_active` is untouched by the update), and the buffer is cleared
completely, never partially. -/
theorem C5_capability_error_handling :
    (∀ (st : StreamingSession) (msg : String),
      8000 ≤ st.audio_buffer.length →
      st.processAudioBuffer (trFail msg) =
        ({ st with audio_buffer := [] },
         [Event.error st.session_id msg], [st.audio_buffer])) ∧
    (∀ (st : StreamingSession) (msg : String),
      8000 ≤ st.audio_buffer.length →
      st.flush_buffer (trFail msg) =
        ({ st with audio_buffer := [] },
         [Event.error st.session_id msg], [st.audio_buffer])) ∧
    (∀ (st : StreamingSession) (msg : String) (c : ℚ),
      8000 ≤ st.audio_buffer.length →
      st.flush_buffer_with_cutoff (trFail msg) c =
        ({ st with audio_buffer := [], process_until_timestamp := none },
         [Event.error st.session_id msg], [st.audio_buffer])) ∧
    (∀ (st : StreamingSession) (a : Bytes) (ts : Option ℚ) (now : ℚ)
        (msg : String),
      st.process_until_timestamp = none →
      min_chunk_size ≤ st.audio_buffer.length + a.length →
      st.process_audio_chunk (trFail msg) a ts now =
        ({ st with audio_buffer := [], last_chunk_time := now },
         [Event.error st.session_id msg], [st.audio_buffer ++ a])) := by
  refine ⟨?_, ?_, ?_, ?_⟩
  · intro st msg h
    rw [processAudioBuffer_attempt _ _ h, attemptEvents_fail]
  · intro st msg h
    simp [flush_buffer_eq, h, attemptEvents_fail]
  · intro st msg c h
    simp [flush_buffer_with_cutoff_eq, h, attemptEvents_fail]
  · intro st a ts now msg hcut hlen
    rw [process_audio_chunk_threshold _ _ _ _ _ hcut hlen, attemptEvents_fail]

/-- Witness for C5: a failing capability on an 8000-byte buffer produces one
error event on each flush path and leaves the buffer empty and the session
active. -/
theorem C5_capability_error_handling_witness :
    8000 ≤ stBig.audio_buffer.length ∧
    stBig.processAudioBuffer (trFail "boom") =
      ({ stBig with audio_buffer := [] },
       [Event.error stBig.session_id "boom"], [stBig.audio_buffer]) ∧
    stBig.flush_buffer (trFail "boom") =
      ({ stBig with audio_buffer := [] },
       [Event.error stBig.session_id "boom"], [stBig.audio_buffer]) ∧
    stBig.flush_buffer_with_cutoff (trFail "boom") 1000 =
      ({ stBig with audio_buffer := [], process_until_timestamp := none },
       [Event.error stBig.session_id "boom"], [stBig.audio_buffer]) ∧
    (⟨"sess", List.replicate 40000 0, true, none, 0⟩ :
        StreamingSession).process_audio_chunk (trFail "boom")
        (List.replicate 8000 1) none 7 =
      ({ (⟨"sess", List.replicate 40000 0, true, none, 0⟩ :
           StreamingSession) with audio_buffer := [], last_chunk_time := 7 },
       [Event.error (⟨"sess", List.replicate 40000 0, true, none, 0⟩ :
          StreamingSession).session_id "boom"],
       [(⟨"sess", List.replicate 40000 0, true, none, 0⟩ :
          StreamingSession).audio_buffer ++ List.replicate 8000 1]) :=
  ⟨stBig_len,
   C5_capability_error_handling.1 stBig "boom" stBig_len,
   C5_capability_error_handling.2.1 stBig "boom" stBig_len,
   C5_capability_error_handling.2.2.1 stBig "boom" 1000 stBig_len,
   C5_capability_error_handling.2.2.2
     ⟨"sess", List.replicate 40000 0, true, none, 0⟩
     (List.replicate 8000 1) none 7 "boom" rfl
     (by rw [show ((⟨"sess", List.replicate 40000 0, true, none, 0⟩ :
             StreamingSession)).audio_buffer = List.replicate 40000 0 from rfl,
           List.length_replicate, List.length_replicate, min_chunk_size_eq])⟩

/-- C6: after a first `flush_buffer` the buffer is empty; that first call
emits exactly one transcription event when the buffer met the 250 ms floor
and the stripped text is non-empty, and none otherwise; a second
`flush_buffer` with no intervening chunk is a no-op that emits nothing and
attempts no transcription. -/
theorem C6_flush_buffer_idempotent (tr : Transcriber) (st : StreamingSession)
    (text : String) (confidence : ℚ)
    (htr : tr st.audio_buffer = .ok (text, confidence)) :
    (st.flush_buffer tr).1.audio_buffer = [] ∧
    (st.flush_buffer tr).2.1 =
      (if 8000 ≤ st.audio_buffer.length ∧ pyStrip text ≠ "" then
        [Event.transcription st.session_id text confidence false]
       else []) ∧
    (st.flush_buffer tr).1.flush_buffer tr = ((st.flush_buffer tr).1, [], []) := by
  have hfb := flush_buffer_eq tr st
  refine ⟨?_, ?_, ?_⟩
  · rw [hfb]
  · rw [hfb]
    by_cases h : 8000 ≤ st.audio_buffer.length
    · simp only [if_pos h, attemptEvents, htr]
      by_cases ht : pyStrip text = "" <;> simp [h, ht]
    · simp [h]
  · have h1 : (st.flush_buffer tr).1.audio_buffer = [] := by rw [hfb]
    rw [flush_buffer_eq tr (st.flush_buffer tr).1,
      set_buffer_empty_eq _ h1, h1]
    simp

/-- Witness for C6 on an 8000-byte buffer with a successful transcription. -/
theorem C6_flush_buffer_idempotent_witness :
    trHello stBig.audio_buffer = .ok ("hello", 9 / 10) ∧
    ((stBig.flush_buffer trHello).1.audio_buffer = [] ∧
     (stBig.flush_buffer trHello).2.1 =
       (if 8000 ≤ stBig.audio_buffer.length ∧ pyStrip "hello" ≠ "" then
         [Event.transcription stBig.session_id "hello" (9 / 10) false]
        else []) ∧
     (stBig.flush_buffer trHello).1.flush_buffer trHello =
       ((stBig.flush_buffer trHello).1, [], [])) :=
  ⟨rfl, C6_flush_buffer_idempotent trHello stBig "hello" (9 / 10) rfl⟩

/-- C4 (amended): the streaming session performs no per-chunk VAD and keeps
no speech buffer or consecutive-silence counter; under no cutoff, a chunk is
appended to `audio_buffer` unconditionally - whatever its content, hence
whatever a VAD would classify it as - and no flush happens inside the call
while the accumulated buffer stays below the 48000-byte size threshold,
regardless of any pattern of silent chunks. -/
theorem C4_amended_session_ignores_vad (tr : Transcriber)
    (st : StreamingSession) (audio_data : Bytes)
    (chunk_timestamp : Option ℚ) (now_ms : ℚ)
    (hcut : st.process_until_timestamp = none)
    (hlen : st.audio_buffer.length + audio_data.length < min_chunk_size) :
    st.process_audio_chunk tr audio_data chunk_timestamp now_ms =
      ({ st with
          audio_buffer := st.audio_buffer ++ audio_data,
          last_chunk_time := now_ms }, [], []) :=
  process_audio_chunk_append tr st audio_data chunk_timestamp now_ms hcut hlen

/-- Witness for the amended C4 on a fresh session and a 3-byte chunk. -/
theorem C4_amended_session_ignores_vad_witness :
    (StreamingSession.init "s" 0).process_until_timestamp = none ∧
    (StreamingSession.init "s" 0).audio_buffer.length +
      ([1, 2, 3] : Bytes).length < min_chunk_size ∧
    (StreamingSession.init "s" 0).process_audio_chunk trHello [1, 2, 3]
        none 1 =
      (⟨"s", [1, 2, 3], true, none, 1⟩, [], []) :=
  ⟨rfl, by simp [StreamingSession.init, min_chunk_size_eq],
   C4_amended_session_ignores_vad trHello (StreamingSession.init "s" 0)
     [1, 2, 3] none 1 rfl
     (by simp [StreamingSession.init, min_chunk_size_eq])⟩

/-- First chunk of the C4 counterexample run: a loud 2000-byte chunk. -/
def c4run1 : StepResult :=
  (StreamingSession.init "s" 0).process_audio_chunk trHello
    (List.replicate 2000 90) none 1

/-- Second chunk of the C4 counterexample run: a silent 2000-byte chunk. -/
def c4run2 : StepResult :=
  c4run1.1.process_audio_chunk trHello (List.replicate 2000 0) none 2

/-- Third chunk of the C4 counterexample run: a second silent chunk. -/
def c4run3 : StepResult :=
  c4run2.1.process_audio_chunk trHello (List.replicate 2000 0) none 3

/-- C4 counterexample: a loud chunk followed by two silent chunks, all below
the size threshold, triggers no flush at all - no transcription attempt, no
event - and the buffer still holds all 6000 bytes afterwards, refuting the
claimed flush of a speech buffer after two consecutive silence
classifications (the session never consults a VAD). -/
theorem C4_cex_no_silence_classification_flush :
    c4run1.2 = ([], []) ∧ c4run2.2 = ([], []) ∧ c4run3.2 = ([], []) ∧
    c4run3.1.audio_buffer.length = 6000 := by
  have h1 : c4run1 = (⟨"s", List.replicate 2000 90, true, none, 1⟩, [], []) :=
    process_audio_chunk_append trHello (StreamingSession.init "s" 0)
      (List.replicate 2000 90) none 1 rfl
      (by rw [show (StreamingSession.init "s" 0).audio_buffer = ([] : Bytes)
            from rfl, List.length_nil, List.length_replicate,
            min_chunk_size_eq]
          norm_num)
  have h2 : c4run2 =
      (⟨"s", List.replicate 2000 90 ++ List.replicate 2000 0, true, none, 2⟩,
       [], []) := by
    have happ := process_audio_chunk_append trHello
      ⟨"s", List.replicate 2000 90, true, none, 1⟩
      (List.replicate 2000 0) none 2 rfl
      (by rw [show ((⟨"s", List.replicate 2000 90, true, none, 1⟩ :
            StreamingSession)).audio_buffer = List.replicate 2000 90 from rfl,
            List.length_replicate, List.length_replicate, min_chunk_size_eq]
          norm_num)
    unfold c4run2
    rw [h1]
    exact happ
  have h3 : c4run3 =
      (⟨"s", (List.replicate 2000 90 ++ List.replicate 2000 0) ++
        List.replicate 2000 0, true, none, 3⟩, [], []) := by
    have happ := process_audio_chunk_append trHello
      ⟨"s", List.replicate 2000 90 ++ List.replicate 2000 0, true, none, 2⟩
      (List.replicate 2000 0) none 3 rfl
      (by rw [show ((⟨"s", List.replicate 2000 90 ++ List.replicate 2000 0,
            true, none, 2⟩ : StreamingSession)).audio_buffer =
            List.replicate 2000 90 ++ List.replicate 2000 0 from rfl,
            List.length_append, List.length_replicate, List.length_replicate,
            min_chunk_size_eq]
          norm_num)
    unfold c4run3
    rw [h2]
    exact happ
  refine ⟨by rw [h1], by rw [h2], by rw [h3], ?_⟩
  rw [h3]
  show ((List.replicate 2000 90 ++ List.replicate 2000 0) ++
    List.replicate 2000 0).length = 6000
  simp only [List.length_append, List.length_replicate]

/-- Replace the `is_active` flag of a session, leaving everything else. -/
def setActive (b : Bool) (st : StreamingSession) : StreamingSession :=
  { st with is_active := b }

theorem processAudioBuffer_setActive (tr : Transcriber)
    (st : StreamingSession) (b : Bool) :
    (setActive b st).processAudioBuffer tr =
      (setActive b ((st.processAudioBuffer tr).1),
       (st.processAudioBuffer tr).2) := by
  rcases le_or_lt 8000 st.audio_buffer.length with h | h
  · rw [processAudioBuffer_attempt tr (setActive b st) h,
      processAudioBuffer_attempt tr st h]
    rfl
  · rw [processAudioBuffer_below tr (setActive b st) h,
      processAudioBuffer_below tr st h]

theorem process_audio_chunk_setActive (tr : Transcriber)
    (st : StreamingSession) (a : Bytes) (ts : Option ℚ) (now : ℚ) (b : Bool) :
    (setActive b st).process_audio_chunk tr a ts now =
      (setActive b ((st.process_audio_chunk tr a ts now).1),
       (st.process_audio_chunk tr a ts now).2) := by
  have hpu : (setActive b st).process_until_timestamp =
      st.process_until_timestamp := rfl
  have hab : (setActive b st).audio_buffer = st.audio_buffer := rfl
  simp only [StreamingSession.process_audio_chunk, hpu, hab]
  cases hcut : st.process_until_timestamp with
  | some c =>
      by_cases hd : c < ts.getD now
      · simp [hd, setActive]
      · have hcond : ¬ ((decide (ts.getD now > c)) = true) := by
          simp only [decide_eq_true_eq, gt_iff_lt]
          exact hd
        simp only [if_neg hcond]
        by_cases hthr : min_chunk_size ≤ (st.audio_buffer ++ a).length
        · simp only [if_pos hthr]
          exact processAudioBuffer_setActive tr
            ⟨st.session_id, st.audio_buffer ++ a, st.is_active, some c, now⟩ b
        · simp only [if_neg hthr]
          rfl
  | none =>
      simp only [Bool.false_eq_true, if_false]
      by_cases hthr : min_chunk_size ≤ (st.audio_buffer ++ a).length
      · simp only [if_pos hthr]
        exact processAudioBuffer_setActive tr
          ⟨st.session_id, st.audio_buffer ++ a, st.is_active, none, now⟩ b
      · simp only [if_neg hthr]
        rfl

theorem flush_buffer_setActive (tr : Transcriber) (st : StreamingSession)
    (b : Bool) :
    (setActive b st).flush_buffer tr =
      (setActive b ((st.flush_buffer tr).1), (st.flush_buffer tr).2) := by
  have hab : (setActive b st).audio_buffer = st.audio_buffer := rfl
  rw [flush_buffer_eq tr (setActive b st), flush_buffer_eq tr st]
  rw [hab]
  rcases le_or_lt 8000 st.audio_buffer.length with h | h
  · simp only [if_pos h]
    rfl
  · simp only [if_neg (by omega : ¬ 8000 ≤ st.audio_buffer.length)]
    rfl

theorem flush_buffer_with_cutoff_setActive (tr : Transcriber)
    (st : StreamingSession) (c : ℚ) (b : Bool) :
    (setActive b st).flush_buffer_with_cutoff tr c =
      (setActive b ((st.flush_buffer_with_cutoff tr c).1),
       (st.flush_buffer_with_cutoff tr c).2) := by
  have hab : (setActive b st).audio_buffer = st.audio_buffer := rfl
  rw [flush_buffer_with_cutoff_eq tr (setActive b st) c,
    flush_buffer_with_cutoff_eq tr st c]
  rw [hab]
  rcases le_or_lt 8000 st.audio_buffer.length with h | h
  · simp only [if_pos h]
    rfl
  · simp only [if_neg (by omega : ¬ 8000 ≤ st.audio_buffer.length)]
    rfl

/-- C8 (amended): the session operations never modify `is_active` (only the
transport-failure paths, outside this model, set it false - hence a session
becomes inactive at most once), but an inactive session is NOT guarded:
every operation behaves on it exactly as on the active session - same buffer
mutation, same events, same transcription attempts - because none of
`process_audio_chunk`, `flush_buffer`, `flush_buffer_with_cutoff` reads
`is_active`. -/
theorem C8_amended_inactivity_not_consulted :
    (∀ (tr : Transcriber) (st : StreamingSession) (a : Bytes) (ts : Option ℚ)
        (now : ℚ),
      (st.process_audio_chunk tr a ts now).1.is_active = st.is_active) ∧
    (∀ (tr : Transcriber) (st : StreamingSession),
      (st.flush_buffer tr).1.is_active = st.is_active) ∧
    (∀ (tr : Transcriber) (st : StreamingSession) (c : ℚ),
      (st.flush_buffer_with_cutoff tr c).1.is_active = st.is_active) ∧
    (∀ (tr : Transcriber) (st : StreamingSession) (a : Bytes) (ts : Option ℚ)
        (now : ℚ) (b : Bool),
      (setActive b st).process_audio_chunk tr a ts now =
        (setActive b ((st.process_audio_chunk tr a ts now).1),
         (st.process_audio_chunk tr a ts now).2)) ∧
    (∀ (tr : Transcriber) (st : StreamingSession) (b : Bool),
      (setActive b st).flush_buffer tr =
        (setActive b ((st.flush_buffer tr).1), (st.flush_buffer tr).2)) ∧
    (∀ (tr : Transcriber) (st : StreamingSession) (c : ℚ) (b : Bool),
      (setActive b st).flush_buffer_with_cutoff tr c =
        (setActive b ((st.flush_buffer_with_cutoff tr c).1),
         (st.flush_buffer_with_cutoff tr c).2)) := by
  refine ⟨?_, ?_, ?_, process_audio_chunk_setActive, flush_buffer_setActive,
    flush_buffer_with_cutoff_setActive⟩
  · intro tr st a ts now
    have h := process_audio_chunk_setActive tr st a ts now st.is_active
    calc (st.process_audio_chunk tr a ts now).1.is_active
        = ((setActive st.is_active st).process_audio_chunk
            tr a ts now).1.is_active := rfl
      _ = st.is_active := by rw [h]; rfl
  · intro tr st
    have h := flush_buffer_setActive tr st st.is_active
    calc (st.flush_buffer tr).1.is_active
        = ((setActive st.is_active st).flush_buffer tr).1.is_active := rfl
      _ = st.is_active := by rw [h]; rfl
  · intro tr st c
    have h := flush_buffer_with_cutoff_setActive tr st c st.is_active
    calc (st.flush_buffer_with_cutoff tr c).1.is_active
        = ((setActive st.is_active st).flush_buffer_with_cutoff
            tr c).1.is_active := rfl
      _ = st.is_active := by rw [h]; rfl

/-- C8 counterexample: an operation on an inactive session is not a no-op:
a session with `is_active = false` still accepts a chunk into its buffer. -/
theorem C8_cex_inactive_session_buffers :
    ((⟨"s", [], false, none, 0⟩ : StreamingSession).process_audio_chunk
        trHello [5, 6] none 1).1.audio_buffer = [5, 6] ∧
    ([5, 6] : Bytes) ≠ (⟨"s", [], false, none, 0⟩ :
        StreamingSession).audio_buffer := by
  constructor
  · rw [process_audio_chunk_append trHello ⟨"s", [], false, none, 0⟩ [5, 6]
      none 1 rfl (by simp [min_chunk_size_eq])]
    rfl
  · simp

/-- C7: with VAD disabled, `has_sufficient_speech` is exactly the byte-length
check of sampleRate times 2 times minDurationMs over 1000: it agrees with the
spec-modelled check for every buffer, and it returns true iff the buffer
length reaches that bound, equivalently iff
2 * sampleRate * minDurationMs <= 1000 * length over the naturals. -/
theorem C7_vad_disabled_byte_length (isSp : Bytes → Bool) (buffer : Bytes)
    (sample_rate min_duration_ms : ℕ) :
    has_sufficient_speech false isSp buffer sample_rate min_duration_ms =
      hasSufficientSpeechSpec buffer.length sample_rate min_duration_ms ∧
    (has_sufficient_speech false isSp buffer sample_rate min_duration_ms
        = true ↔
      (sample_rate : ℚ) * 2 * ((min_duration_ms : ℚ) / 1000) ≤
        (buffer.length : ℚ)) ∧
    (has_sufficient_speech false isSp buffer sample_rate min_duration_ms
        = true ↔
      2 * sample_rate * min_duration_ms ≤ 1000 * buffer.length) := by
  have hkey : ((sample_rate : ℚ) * 2 * ((min_duration_ms : ℚ) / 1000) ≤
      (buffer.length : ℚ)) ↔
      2 * sample_rate * min_duration_ms ≤ 1000 * buffer.length := by
    rw [show (sample_rate : ℚ) * 2 * ((min_duration_ms : ℚ) / 1000) =
      ((2 * sample_rate * min_duration_ms : ℕ) : ℚ) / 1000 by push_cast; ring]
    rw [div_le_iff₀ (by norm_num : (0 : ℚ) < 1000)]
    rw [show ((buffer.length : ℚ) * 1000) =
      ((1000 * buffer.length : ℕ) : ℚ) by push_cast; ring]
    exact_mod_cast Iff.rfl
  have hbool : has_sufficient_speech false isSp buffer sample_rate
      min_duration_ms =
      decide ((sample_rate : ℚ) * 2 * ((min_duration_ms : ℚ) / 1000) ≤
        (buffer.length : ℚ)) := by
    simp [has_sufficient_speech]
  refine ⟨?_, ?_, ?_⟩
  · rw [hbool]
    unfold hasSufficientSpeechSpec
    exact decide_eq_decide.mpr (by rw [mul_div_assoc])
  · rw [hbool, decide_eq_true_eq]
  · rw [hbool, decide_eq_true_eq]
    exact hkey

/-- C10: `transcribe_chunk` returns ("", 0.0) without invoking the ASR model
whenever the input holds fewer than sampleRate / 2 samples; consequently a
`flush_buffer` whose buffer length is in [8000, 16000) clears the buffer,
performs the (session-level) transcription attempt, but emits no event and
never reaches the model. -/
theorem C10_short_input_skips_model :
    (∀ (model : Bytes → String × ℚ) (audio_data : Bytes) (sample_rate : ℕ),
      audio_data.length / 2 < sample_rate / 2 →
      transcribe_chunk model audio_data sample_rate = (("", 0), 0)) ∧
    (∀ (model : Bytes → String × ℚ) (st : StreamingSession),
      8000 ≤ st.audio_buffer.length → st.audio_buffer.length < 16000 →
      st.flush_buffer (transcriberOfModel model) =
        ({ st with audio_buffer := [] }, [], [st.audio_buffer]) ∧
      (transcribe_chunk model st.audio_buffer 16000).2 = 0) := by
  constructor
  · intro model audio_data sample_rate h
    simp [transcribe_chunk, h]
  · intro model st h8 h16
    have hshort : st.audio_buffer.length / 2 < 16000 / 2 := by omega
    have htc : transcribe_chunk model st.audio_buffer 16000 = (("", 0), 0) := by
      simp [transcribe_chunk, hshort]
    have htr : transcriberOfModel model st.audio_buffer = .ok ("", 0) := by
      unfold transcriberOfModel
      rw [htc]
    have hev : attemptEvents (transcriberOfModel model) st.session_id
        st.audio_buffer = [] := by
      unfold attemptEvents
      rw [htr]
      dsimp only
      rw [if_neg (by decide : ¬ (pyStrip "" ≠ ""))]
    refine ⟨?_, by rw [htc]⟩
    rw [flush_buffer_eq, if_pos h8, if_pos h8, hev]

/-- A trivial concrete ASR model for the C10 witness. -/
def model0 : Bytes → String × ℚ := fun _ => ("x", 1)

theorem stBig_len_lt : stBig.audio_buffer.length < 16000 := by
  rw [show stBig.audio_buffer = List.replicate 8000 3 from rfl,
    List.length_replicate]
  norm_num

/-- Witness for C10: a 4-byte input returns ("", 0) with zero model calls,
and a flush of the 8000-byte fixture clears the buffer without any event or
model call. -/
theorem C10_short_input_skips_model_witness :
    ([1, 2, 3, 4] : Bytes).length / 2 < 16000 / 2 ∧
    transcribe_chunk model0 [1, 2, 3, 4] 16000 = (("", 0), 0) ∧
    8000 ≤ stBig.audio_buffer.length ∧
    stBig.audio_buffer.length < 16000 ∧
    (stBig.flush_buffer (transcriberOfModel model0) =
       ({ stBig with audio_buffer := [] }, [], [stBig.audio_buffer]) ∧
     (transcribe_chunk model0 stBig.audio_buffer 16000).2 = 0) :=
  ⟨by norm_num,
   C10_short_input_skips_model.1 model0 [1, 2, 3, 4] 16000 (by norm_num),
   stBig_len, stBig_len_lt,
   C10_short_input_skips_model.2 model0 stBig stBig_len stBig_len_lt⟩

theorem runLoop_nil (tr : Transcriber) (now : ℚ) (st : StreamingSession) :
    runLoop tr [] now st = ⟨st, [], [], none⟩ := rfl

theorem runLoop_chunk (tr : Transcriber) (t : ℚ) (rest : List (ℚ × InMsg))
    (now : ℚ) (st : StreamingSession) (chunk : Bytes) (ts : Option ℚ)
    (h : ¬ chunk.length = 0) :
    runLoop tr ((t, InMsg.audio_chunk chunk ts) :: rest) now st =
      (let r := st.process_audio_chunk tr chunk ts (max now t)
       let k := runLoop tr rest (max now t) r.1
       ⟨k.final, r.2.1 ++ k.events, r.2.2 ++ k.transcripts, k.closeCode⟩) := by
  simp only [runLoop]
  rw [if_neg h]

theorem runLoop_flush_cutoff (tr : Transcriber) (t : ℚ)
    (rest : List (ℚ × InMsg)) (now : ℚ) (st : StreamingSession) (c : ℚ)
    (g : Option ℚ) (hc : c ≠ 0) :
    runLoop tr ((t, InMsg.flush_msg (some c) g) :: rest) now st =
      (let r := st.flush_buffer_with_cutoff tr c
       let k := runLoop tr rest (max now t + g.getD 500) r.1
       ⟨k.final, r.2.1 ++ Event.buffer_flushed st.session_id :: k.events,
        r.2.2 ++ k.transcripts, k.closeCode⟩) := by
  simp [runLoop, hc]

theorem runLoop_malformed (tr : Transcriber) (t : ℚ)
    (rest : List (ℚ × InMsg)) (now : ℚ) (st : StreamingSession) :
    runLoop tr ((t, InMsg.malformed) :: rest) now st =
      runLoop tr rest (max now t) st := rfl

/-- C9 (amended): a malformed-JSON frame arriving after the connect
handshake is ignored by the read loop without closing the connection, but a
malformed very first frame makes the initial `json.loads` raise into the
generic exception handler, which closes with the internal-error code 1011 -
not 1008, and not "ignored"; only a well-formed first message whose type is
not connect closes with the protocol-violation code 1008. -/
theorem C9_amended_malformed_handling (tr : Transcriber) :
    (∀ (t : ℚ) (rest : List (ℚ × InMsg)) (now : ℚ) (st : StreamingSession),
      runLoop tr ((t, InMsg.malformed) :: rest) now st =
        runLoop tr rest (max now t) st) ∧
    (∀ (t : ℚ) (rest : List (ℚ × InMsg)),
      handle_websocket tr ((t, InMsg.malformed) :: rest) =
        ⟨[], [], some 1011⟩) ∧
    (∀ (t : ℚ) (s : String) (rest : List (ℚ × InMsg)),
      handle_websocket tr ((t, InMsg.other s) :: rest) =
        ⟨[], [], some 1008⟩) ∧
    (∀ (t : ℚ) (chunk : Bytes) (ts : Option ℚ) (rest : List (ℚ × InMsg)),
      handle_websocket tr ((t, InMsg.audio_chunk chunk ts) :: rest) =
        ⟨[], [], some 1008⟩) ∧
    (∀ (t : ℚ) (cts g : Option ℚ) (rest : List (ℚ × InMsg)),
      handle_websocket tr ((t, InMsg.flush_msg cts g) :: rest) =
        ⟨[], [], some 1008⟩) ∧
    (∀ (t : ℚ) (rest : List (ℚ × InMsg)),
      handle_websocket tr ((t, InMsg.end_stream) :: rest) =
        ⟨[], [], some 1008⟩) :=
  ⟨fun _ _ _ _ => rfl, fun _ _ => rfl, fun _ _ _ => rfl, fun _ _ _ _ => rfl,
   fun _ _ _ _ => rfl, fun _ _ => rfl⟩

/-- C9 counterexample: a connection whose very first frame is malformed JSON
is closed with code 1011, refuting both that malformed first frames are
ignored without closing and that only well-formed non-connect first messages
close the connection (and then with 1008). -/
theorem C9_cex_malformed_first_closes :
    (handle_websocket trHello [((0 : ℚ), InMsg.malformed)]).closeCode =
      some 1011 ∧
    (handle_websocket trHello [((0 : ℚ), InMsg.malformed)]).closeCode ≠
      none ∧
    (handle_websocket trHello [((0 : ℚ), InMsg.malformed)]).closeCode ≠
      some 1008 := by
  refine ⟨rfl, by decide, by decide⟩

/-- C1 run, first audio chunk: 4000 bytes stamped 900 (before the cutoff). -/
def chunkA : Bytes := List.replicate 4000 1

/-- C1 run, second audio chunk: 4000 bytes stamped 2000 (after the cutoff),
arriving before the flush request. -/
def chunkC : Bytes := List.replicate 4000 2

/-- C1 run, third audio chunk: 8000 bytes stamped 950 (before the cutoff),
arriving 50 ms into the grace period. -/
def chunkB : Bytes := List.replicate 8000 3

theorem chunkA_len : chunkA.length = 4000 := List.length_replicate 4000 1

theorem chunkC_len : chunkC.length = 4000 := List.length_replicate 4000 2

theorem chunkB_len : chunkB.length = 8000 := List.length_replicate 8000 3

/-- The C1 message trace: connect, chunk A at 10 ms, chunk C at 15 ms, a
cutoff flush (cutoff 1000, grace 500 ms) at 20 ms, and chunk B at 70 ms,
well inside the grace window. -/
def c1msgs : List (ℚ × InMsg) :=
  [(0, InMsg.connect (some "s1")),
   (10, InMsg.audio_chunk chunkA (some 900)),
   (15, InMsg.audio_chunk chunkC (some 2000)),
   (20, InMsg.flush_msg (some 1000) (some 500)),
   (70, InMsg.audio_chunk chunkB (some 950))]

theorem attemptEvents_hello (sid : String) (chunk : Bytes) :
    attemptEvents trHello sid chunk =
      [Event.transcription sid "hello" (9 / 10) false] := by
  unfold attemptEvents trHello
  dsimp only
  rw [if_pos (by decide : pyStrip "hello" ≠ "")]

theorem hAC_ge : 8000 ≤ (chunkA ++ chunkC).length := by
  simp only [List.length_append, chunkA_len, chunkC_len]
  norm_num

theorem hB_ge : 8000 ≤ chunkB.length := by
  simp only [chunkB_len]
  norm_num

/-- C1 (code behavior at the failing input): in the `c1msgs` trace the
cutoff flush transcribes exactly `chunkA ++ chunkC` - including chunk C
stamped 2000 > cutoff 1000, which was buffered before the flush request and
is never filtered out - while chunk B, stamped 950 <= 1000 and arriving
50 ms into the 500 ms grace window, is not part of the flush buffer: the
dispatcher awaits the flush inline, so B is only read after the grace sleep
and the flush completed, and is transcribed by the separate final flush.
The claim requires the flush transcription input to be chunkA ++ chunkB. -/
theorem C1_cutoff_flush_blocks_read_loop :
    (handle_websocket trHello c1msgs).transcripts =
      [chunkA ++ chunkC, chunkB] ∧
    (handle_websocket trHello c1msgs).events =
      [Event.connected "s1",
       Event.transcription "s1" "hello" (9 / 10) false,
       Event.buffer_flushed "s1",
       Event.transcription "s1" "hello" (9 / 10) false] ∧
    (handle_websocket trHello c1msgs).closeCode = none ∧
    (950 : ℚ) ≤ 1000 ∧ (20 : ℚ) ≤ 70 ∧ (70 : ℚ) ≤ 20 + 500 ∧
    (1000 : ℚ) < 2000 := by
  have h4 : runLoop trHello [(70, InMsg.audio_chunk chunkB (some 950))] 520
      ⟨"s1", [], true, none, 15⟩ =
      ⟨⟨"s1", chunkB, true, none, 520⟩, [], [], none⟩ := by
    rw [runLoop_chunk trHello 70 [] 520 ⟨"s1", [], true, none, 15⟩ chunkB
      (some 950) (by simp only [chunkB_len]; norm_num)]
    dsimp only
    rw [show max (520 : ℚ) 70 = 520 from max_eq_left (by norm_num)]
    rw [process_audio_chunk_append trHello ⟨"s1", [], true, none, 15⟩ chunkB
      (some 950) 520 rfl
      (by rw [show ((⟨"s1", [], true, none, 15⟩ :
            StreamingSession)).audio_buffer = ([] : Bytes) from rfl]
          simp only [List.length_nil, chunkB_len, min_chunk_size_eq]
          norm_num)]
    rw [runLoop_nil]
    rfl
  have hflush : StreamingSession.flush_buffer_with_cutoff trHello
      ⟨"s1", chunkA ++ chunkC, true, none, 15⟩ 1000 =
      (⟨"s1", [], true, none, 15⟩,
       [Event.transcription "s1" "hello" (9 / 10) false],
       [chunkA ++ chunkC]) := by
    rw [flush_buffer_with_cutoff_eq]
    dsimp only
    rw [if_pos hAC_ge, if_pos hAC_ge, attemptEvents_hello]
  have h3 : runLoop trHello
      ((20, InMsg.flush_msg (some 1000) (some 500)) ::
        [(70, InMsg.audio_chunk chunkB (some 950))]) 15
      ⟨"s1", chunkA ++ chunkC, true, none, 15⟩ =
      ⟨⟨"s1", chunkB, true, none, 520⟩,
       [Event.transcription "s1" "hello" (9 / 10) false,
        Event.buffer_flushed "s1"],
       [chunkA ++ chunkC], none⟩ := by
    rw [runLoop_flush_cutoff trHello 20 _ 15 _ 1000 (some 500)
      (by norm_num)]
    dsimp only
    rw [Option.getD_some]
    rw [show max (15 : ℚ) 20 = 20 from max_eq_right (by norm_num)]
    rw [show (20 : ℚ) + 500 = 520 by norm_num]
    rw [hflush]
    dsimp only
    rw [h4]
    rfl
  have h2 : runLoop trHello
      ((15, InMsg.audio_chunk chunkC (some 2000)) ::
        ((20, InMsg.flush_msg (some 1000) (some 500)) ::
          [(70, InMsg.audio_chunk chunkB (some 950))])) 10
      ⟨"s1", chunkA, true, none, 10⟩ =
      ⟨⟨"s1", chunkB, true, none, 520⟩,
       [Event.transcription "s1" "hello" (9 / 10) false,
        Event.buffer_flushed "s1"],
       [chunkA ++ chunkC], none⟩ := by
    rw [runLoop_chunk trHello 15 _ 10 _ chunkC (some 2000)
      (by simp only [chunkC_len]; norm_num)]
    dsimp only
    rw [show max (10 : ℚ) 15 = 15 from max_eq_right (by norm_num)]
    rw [process_audio_chunk_append trHello ⟨"s1", chunkA, true, none, 10⟩
      chunkC (some 2000) 15 rfl
      (by rw [show ((⟨"s1", chunkA, true, none, 10⟩ :
            StreamingSession)).audio_buffer = chunkA from rfl]
          simp only [chunkA_len, chunkC_len, min_chunk_size_eq]
          norm_num)]
    dsimp only
    rw [h3]
    rfl
  have h1 : runLoop trHello
      ((10, InMsg.audio_chunk chunkA (some 900)) ::
        ((15, InMsg.audio_chunk chunkC (some 2000)) ::
          ((20, InMsg.flush_msg (some 1000) (some 500)) ::
            [(70, InMsg.audio_chunk chunkB (some 950))]))) 0
      (StreamingSession.init "s1" 0) =
      ⟨⟨"s1", chunkB, true, none, 520⟩,
       [Event.transcription "s1" "hello" (9 / 10) false,
        Event.buffer_flushed "s1"],
       [chunkA ++ chunkC], none⟩ := by
    rw [runLoop_chunk trHello 10 _ 0 _ chunkA (some 900)
      (by simp only [chunkA_len]; norm_num)]
    dsimp only
    rw [show max (0 : ℚ) 10 = 10 from max_eq_right (by norm_num)]
    rw [process_audio_chunk_append trHello (StreamingSession.init "s1" 0)
      chunkA (some 900) 10 rfl
      (by rw [show (StreamingSession.init "s1" 0).audio_buffer = ([] : Bytes)
            from rfl]
          simp only [List.length_nil, chunkA_len, min_chunk_size_eq]
          norm_num)]
    dsimp only [StreamingSession.init]
    simp only [List.nil_append]
    rw [h2]
  have hfin : StreamingSession.flush_buffer trHello
      ⟨"s1", chunkB, true, none, 520⟩ =
      (⟨"s1", [], true, none, 520⟩,
       [Event.transcription "s1" "hello" (9 / 10) false], [chunkB]) := by
    rw [flush_buffer_eq]
    dsimp only
    rw [if_pos hB_ge, if_pos hB_ge, attemptEvents_hello]
  have hmain : handle_websocket trHello c1msgs =
      ⟨[Event.connected "s1",
        Event.transcription "s1" "hello" (9 / 10) false,
        Event.buffer_flushed "s1",
        Event.transcription "s1" "hello" (9 / 10) false],
       [chunkA ++ chunkC, chunkB], none⟩ := by
    simp only [c1msgs, handle_websocket]
    rw [if_neg (by decide : ¬ ("s1" = ""))]
    rw [h1]
    dsimp only
    rw [hfin]
    rfl
  rw [hmain]
  refine ⟨rfl, rfl, rfl, by norm_num, by norm_num, by norm_num, by norm_num⟩
